import Mathlib

/- Shallow embedding of the pydealer repository (card.py, ranks.py,
   stack.py, deck.py). Python values are modelled as follows: strings as
   String, None as Option, integers as Int or Nat, numeric rank values as
   exact unreduced fractions (PyNum), dicts as association lists that keep
   insertion order, the deque backing a Stack as a List with Python index 0
   at the head (so deque.pop removes the last element and deque.popleft the
   first), and fallible code as Except PyErr. -/

/-- Python exception kinds raised by the modelled code paths. -/
inductive PyErr
  | nameError
  | attributeError
  | valueError
  | keyError
deriving DecidableEq, Repr

/-- Model of the Python str.capitalize method on ASCII strings: the first
character is uppercased and the rest lowercased. -/
def pyCapitalize (s : String) : String :=
  match s.data with
  | [] => ""
  | c :: rest => String.mk (c.toUpper :: rest.map Char.toLower)

/-- Digit sequence parser used by pyInt; none on an empty or non digit
list. -/
def parseDigits (cs : List Char) : Option Nat :=
  match cs with
  | [] => none
  | _ =>
    cs.foldl
      (fun acc c =>
        match acc with
        | none => none
        | some a => if c.isDigit then some (a * 10 + (c.toNat - 48)) else none)
      (some 0)

/-- Model of the Python int() conversion on strings: surrounding spaces are
stripped, then an optional sign followed by at least one ASCII digit. -/
def pyInt (s : String) : Option Int :=
  let cs := ((s.data.dropWhile (· = ' ')).reverse.dropWhile (· = ' ')).reverse
  match cs with
  | '-' :: rest => (parseDigits rest).map (fun n => -(n : Int))
  | '+' :: rest => (parseDigits rest).map (fun n => (n : Int))
  | _ => (parseDigits cs).map (fun n => (n : Int))

/-- A Card instance: the stored face, the stored suit (None possible for a
Joker) and the comparison value. -/
structure CardM where
  face : String
  suit : Option String
  value : Int
deriving DecidableEq, Repr

/-- Model of the expression str(suit).capitalize() if suit else suit in
Card.__init__ (card.py line 89): a truthy suit is capitalized, a falsy one
(None or the empty string) is stored unchanged. -/
def pySuitNorm : Option String → Option String
  | none => none
  | some s => if s = "" then some "" else some (pyCapitalize s)

/-- Value derivation of Card.__init__ (card.py lines 93 to 106): an
explicit value wins, then the named faces, then int(self.face), which
raises ValueError when the stored face does not parse as an integer. -/
def Card.deriveValue (f : String) (value : Option Int) : Except PyErr Int :=
  match value with
  | some v => Except.ok v
  | none =>
    if f = "Joker" then Except.ok 15
    else if f = "Ace" then Except.ok 14
    else if f = "King" then Except.ok 13
    else if f = "Queen" then Except.ok 12
    else if f = "Jack" then Except.ok 11
    else
      match pyInt f with
      | some n => Except.ok n
      | none => Except.error PyErr.valueError

/-- Card.__init__ (card.py lines 73 to 106): normalizes face and suit and
then derives the value. The optional ranks argument only stores a
reference and is not part of the value model. -/
def Card.init (face : String) (suit : Option String) (value : Option Int) :
    Except PyErr CardM :=
  let f := pyCapitalize face
  let st := pySuitNorm suit
  (Card.deriveValue f value).map
    (fun v => { face := f, suit := st, value := v })

/-- Model of Python str applied to the suit field inside a format string:
str(None) is the text None. -/
def pyShowSuit : Option String → String
  | none => "None"
  | some s => s

/-- The guard of the name property compares self.value (an int) with the
string constant Faces.JOKER, which is always False in Python. -/
def intEqStr (_ : Int) (_ : String) : Bool := false

/-- Card.name (card.py lines 413 to 426). Because the guard compares an int
value with a string, the else branch is always taken, even for a Joker. -/
def Card.name (c : CardM) : String :=
  if intEqStr c.value "Joker" then "Joker"
  else c.face ++ " of " ++ pyShowSuit c.suit

/-- Default face vocabulary built by Faces.__init__ (card.py). -/
def Faces.defaultList : List String :=
  ["2", "3", "4", "5", "6", "7", "8", "9", "10", "Jack", "Queen", "King", "Ace"]

/-- Default suit vocabulary built by Suits.__init__ (card.py). -/
def Suits.defaultList : List String :=
  ["Clubs", "Diamonds", "Hearts", "Spades"]

/-- Configuration stored on a Deck by Deck.__init__ (deck.py lines 49 to
109): the decks and jokers counts and the face and suit vocabularies. -/
structure DeckConfig where
  decks : Nat
  jokers : Nat
  faces : List String
  suits : List String
deriving Repr

/-- Deck.build (deck.py lines 176 to 200). The statement faces = faces or
self.faces uses Python truthiness, so None or an empty list falls back to
the stored vocabulary. The contents become the cross product (face outer
loop, suit inner loop) followed by self.jokers Joker cards. The stored
decks count is never consulted by build. -/
def Deck.build (cfg : DeckConfig) (facesArg suitsArg : Option (List String)) :
    Except PyErr (List CardM) := do
  let faces := match facesArg with
    | some l => if l.isEmpty then cfg.faces else l
    | none => cfg.faces
  let suits := match suitsArg with
    | some l => if l.isEmpty then cfg.suits else l
    | none => cfg.suits
  let base ← (faces.flatMap (fun f => suits.map (fun s => (f, s)))).mapM
    (fun p => Card.init p.1 (some p.2) none)
  let jok ← (List.replicate cfg.jokers 0).mapM
    (fun _ => Card.init "Joker" none none)
  pure (base ++ jok)

/-- The two ends of a Stack, the TOP and BOTTOM constants of stack.py. -/
inductive StackEnd
  | top
  | bottom
deriving DecidableEq, Repr

/-- Removing one card from an end of the deque: deque.pop takes the element
with the highest Python index, deque.popleft the one at index 0. -/
def popEnd {α : Type} : StackEnd → List α → Option (α × List α)
  | StackEnd.top, l =>
    match l.reverse with
    | [] => none
    | c :: rest => some (c, rest.reverse)
  | StackEnd.bottom, [] => none
  | StackEnd.bottom, c :: rest => some (c, rest)

/-- The dealing loop of Stack.deal (stack.py lines 230 to 263): pop up to
num cards from the given end, stopping if the Stack becomes empty, and
return the dealt cards in pop order together with the remaining cards. -/
def dealN {α : Type} : Nat → StackEnd → List α → List α × List α
  | 0, _, l => ([], l)
  | n + 1, e, l =>
    match popEnd e l with
    | none => ([], l)
    | some (c, rest) =>
      let p := dealN n e rest
      (c :: p.1, p.2)

/-- Runtime class of a returned collection: self.__class__ for Stack.deal
versus the explicit Stack constructor used by Deck.deal. -/
inductive PyClass
  | stack
  | deck
deriving DecidableEq, Repr

/-- Result of a deal: the class of the returned collection, the dealt cards
in pop order, and the cards left behind in the source. -/
structure DealResult where
  cls : PyClass
  dealt : List CardM
  remaining : List CardM
deriving DecidableEq, Repr

/-- Stack.deal (stack.py lines 230 to 263): num is clamped to the current
size, that many cards are popped from the chosen end, and the result is
returned as self.__class__(cards=dealt_cards). -/
def Stack.deal (cls : PyClass) (num : Nat) (e : StackEnd)
    (cards : List CardM) : DealResult :=
  let p := dealN num e cards
  { cls := cls, dealt := p.1, remaining := p.2 }

/-- Deck.deal (deck.py lines 124 to 173) with rebuild disabled: the while
loop pops until num cards are dealt or the deck is empty and then breaks;
the result is returned as Stack(cards=dealt_cards), a plain Stack even when
self is a Deck. -/
def Deck.dealNoRebuild (num : Nat) (e : StackEnd) (cards : List CardM) :
    DealResult :=
  let p := dealN num e cards
  { cls := PyClass.stack, dealt := p.1, remaining := p.2 }

/-- Stack.add (stack.py lines 206 to 227): TOP appends with += preserving
the input order, BOTTOM uses deque.extendleft, which prepends the new block
in reversed order. -/
def Stack.add (self cards : List CardM) (e : StackEnd) : List CardM :=
  match e with
  | StackEnd.top => self ++ cards
  | StackEnd.bottom => cards.reverse ++ self

/-- Deal k cards from one end of a Stack, then add the dealt cards back at
the same end. -/
def dealAddRoundTrip (s : List CardM) (k : Nat) (e : StackEnd) :
    List CardM :=
  let r := Stack.deal PyClass.stack k e s
  Stack.add r.remaining r.dealt e

/-- Deck.deal (deck.py lines 124 to 173) with rebuild enabled and the
shuffle argument left at None: when a pop fails on the empty deck, the
except branch calls self.build() and, since reshuffle is configured,
self.shuffle(); sh models the permutation applied by shuffle and built the
contents produced by build(). Dealing continues until num cards have been
dealt. If a rebuild produced an empty deck the Python loop would never
terminate, modelled by none. -/
def Deck.dealRebuild (sh : List CardM → List CardM) (built : List CardM)
    (e : StackEnd) : Nat → List CardM → Option (List CardM × List CardM)
  | 0, cards => some ([], cards)
  | n + 1, cards =>
    match popEnd e cards with
    | some (c, rest) =>
      (Deck.dealRebuild sh built e n rest).map (fun p => (c :: p.1, p.2))
    | none =>
      match popEnd e (sh built) with
      | some (c, rest) =>
        (Deck.dealRebuild sh built e n rest).map (fun p => (c :: p.1, p.2))
      | none => none

/-- Python slice l[i:] for an Int index, with Python clamping semantics. -/
def pySliceFrom (l : List CardM) (i : Int) : List CardM :=
  if i < 0 then l.drop (((l.length : Int) + i).toNat) else l.drop i.toNat

/-- Python slice l[0:i] for a nonnegative Int index, the only upper bounded
form Stack.split uses. -/
def pySliceTo (l : List CardM) (i : Int) : List CardM :=
  l.take i.toNat

/-- Stack.split (stack.py lines 409 to 438). The two branches that pass the
deque self.cards to the Stack constructor raise AttributeError there,
because Stack.__init__ (stack.py lines 36 to 42) evaluates getattr on a
value that is neither a list nor carries a cards attribute. The slice based
branches pass plain lists and succeed. -/
def Stack.split (s : List CardM) (indice : Option Int) :
    Except PyErr (List CardM × List CardM) :=
  let n : Int := s.length
  match indice with
  | none =>
    let midpoint := s.length / 2
    Except.ok (s.take midpoint, s.drop midpoint)
  | some i =>
    if i ≥ n then Except.error PyErr.attributeError
    else if i < 0 ∧ -i ≥ n then Except.error PyErr.attributeError
    else if i < 0 ∧ -i ≤ n then
      Except.ok (pySliceFrom s i, pySliceTo s (-i))
    else Except.ok (pySliceTo s i, pySliceFrom s i)

/-- Stack.compare (stack.py lines 441 to 464): the first executed statement
is isinstance(yours, list), but the local variable yours is never assigned
before this read, so every call raises NameError before reaching the
sorted multiset comparison. -/
def Stack.compare (mine other : List CardM) : Except PyErr Bool :=
  Except.error PyErr.nameError

/-- Stack.__eq__ (stack.py lines 135 to 147) delegates to self.compare. -/
def Stack.eqOp (a b : List CardM) : Except PyErr Bool := Stack.compare a b

/-- Stack.__ne__ (stack.py lines 150 to 163) returns the negation of
self.compare. -/
def Stack.neOp (a b : List CardM) : Except PyErr Bool :=
  (Stack.compare a b).map (fun r => !r)

/-- Exact unreduced fraction, modelling the Python numbers produced by the
rank formulas (ints and the results of true division by 100). All the
denominators used are positive. -/
structure PyNum where
  num : Int
  den : Int
deriving DecidableEq, Repr

/-- Embed a Python int. -/
def PyNum.ofInt (n : Int) : PyNum := { num := n, den := 1 }

/-- Addition of fractions without normalization. -/
def PyNum.add (a b : PyNum) : PyNum :=
  { num := a.num * b.den + b.num * a.den, den := a.den * b.den }

/-- Multiplication of fractions without normalization. -/
def PyNum.mul (a b : PyNum) : PyNum :=
  { num := a.num * b.num, den := a.den * b.den }

/-- True division of fractions without normalization. -/
def PyNum.div (a b : PyNum) : PyNum :=
  { num := a.num * b.den, den := a.den * b.num }

/-- Value equality of two fractions by cross multiplication. -/
def PyNum.valEq (a b : PyNum) : Prop := a.num * b.den = b.num * a.den

instance (a b : PyNum) : Decidable (PyNum.valEq a b) := by
  unfold PyNum.valEq; infer_instance

/-- The Python comparison suitvalue != 0 for a rank weight. -/
def PyNum.isZero (a : PyNum) : Bool := a.num == 0

/-- Declarative rank specification: the suit weight and face weight
mappings, the two required keys of a ranks dict. -/
structure RankSpec where
  suits : List (String × PyNum)
  cards : List (String × PyNum)
deriving DecidableEq, Repr

/-- The class level default ranks dict of Ranks (ranks.py lines 12 to
34). -/
def defaultRanksSpec : RankSpec where
  suits :=
    [("Diamonds", PyNum.ofInt 0), ("Hearts", PyNum.ofInt 0),
      ("Spades", PyNum.ofInt 0), ("Clubs", PyNum.ofInt 0)]
  cards :=
    [("Ace", PyNum.ofInt 14), ("King", PyNum.ofInt 13),
      ("Queen", PyNum.ofInt 12), ("Jack", PyNum.ofInt 11),
      ("10", PyNum.ofInt 10), ("9", PyNum.ofInt 9), ("8", PyNum.ofInt 8),
      ("7", PyNum.ofInt 7), ("6", PyNum.ofInt 6), ("5", PyNum.ofInt 5),
      ("4", PyNum.ofInt 4), ("3", PyNum.ofInt 3), ("2", PyNum.ofInt 2)]

/-- The derived suit to face to rank table. In the source this is the class
attribute Ranks._values, a single dict shared by every instance and mutated
in place by build_ranks, so it is threaded explicitly as state here. -/
abbrev RankValues := List (String × List (String × PyNum))

/-- Python dict assignment d[k] = v on an insertion ordered association
list: replace in place when the key exists, else append. -/
def dictSet {α : Type} (d : List (String × α)) (k : String) (v : α) :
    List (String × α) :=
  if (d.find? (fun p => p.1 == k)).isSome then
    d.map (fun p => if p.1 == k then (k, v) else p)
  else d ++ [(k, v)]

/-- Python membership test k in d for a dict. -/
def dictHas {α : Type} (d : List (String × α)) (k : String) : Bool :=
  (d.find? (fun p => p.1 == k)).isSome

/-- Python dict read d[k], none when the key is missing. -/
def dictGet? {α : Type} (d : List (String × α)) (k : String) : Option α :=
  (d.find? (fun p => p.1 == k)).map (fun p => p.2)

/-- Ranks.build_ranks (ranks.py lines 72 to 87): iterates the declared suit
and face weights and writes the combined rank into the shared _values
table, creating the per suit inner dict only when it is missing. -/
def Ranks.build_ranks (suit_first : Bool) (spec : RankSpec)
    (values : RankValues) : RankValues :=
  spec.suits.foldl
    (fun vals sv =>
      let vals1 := if dictHas vals sv.1 then vals else vals ++ [(sv.1, [])]
      spec.cards.foldl
        (fun v2 cv =>
          let value : PyNum :=
            if suit_first then PyNum.mul sv.2 cv.2
            else if !(PyNum.isZero sv.2) then
              PyNum.add cv.2 (PyNum.div sv.2 (PyNum.ofInt 100))
            else cv.2
          v2.map
            (fun p => if p.1 == sv.1 then (p.1, dictSet p.2 cv.1 value) else p))
        vals1)
    values

/-- Instance attributes of a Ranks object that lookups consult. -/
structure RanksInst where
  ranks : RankSpec
  suit_first : Bool
  jokers : Bool
deriving Repr

/-- Ranks.__init__ (ranks.py lines 36 to 52), threading the shared class
level _values table explicitly: a supplied spec is stored per instance;
ace_high=False dereferences the undefined name CardNames and raises
NameError; build_ranks then mutates the shared table in place. The jokers
parameter is accepted but never stored, so the attribute keeps its class
default False. -/
def Ranks.init (rspec : Option RankSpec) (ace_high : Bool)
    (suit_first : Option Bool) (shared : RankValues) :
    Except PyErr (RanksInst × RankValues) :=
  let ranks := rspec.getD defaultRanksSpec
  if !ace_high then Except.error PyErr.nameError
  else
    let sf := suit_first.getD false
    Except.ok ({ ranks := ranks, suit_first := sf, jokers := false },
      Ranks.build_ranks sf ranks shared)

/-- A value produced by Ranks.get_card_rank: normally a number, but the
joker branch returns self._values applied to the Joker key, an inner dict,
whenever a suit named Joker exists in the table. -/
inductive PyRankValue
  | num (q : PyNum)
  | table (d : List (String × PyNum))
deriving DecidableEq, Repr

/-- Ranks.get_card_rank (ranks.py lines 90 to 101). The joker guard
compares Card.name with the string Joker, which never matches because name
always contains the separator text; a card whose suit is a key of _values
then evaluates card.card, an attribute the Card class does not define, so
the lookup raises AttributeError; only a card whose suit is absent from the
table (including a Joker, whose suit is None) reaches the fallback 0. -/
def Ranks.get_card_rank (values : RankValues) (jokers : Bool) (c : CardM) :
    Except PyErr PyRankValue :=
  if Card.name c = "Joker" then
    if jokers then
      match dictGet? values "Joker" with
      | some d => Except.ok (PyRankValue.table d)
      | none => Except.error PyErr.keyError
    else Except.ok (PyRankValue.num (PyNum.ofInt 0))
  else
    match c.suit with
    | none => Except.ok (PyRankValue.num (PyNum.ofInt 0))
    | some s =>
      if dictHas values s then Except.error PyErr.attributeError
      else Except.ok (PyRankValue.num (PyNum.ofInt 0))

/-- Configuration of Deck(decks=2, jokers=0) with default vocabularies. -/
def twoDeckCfg : DeckConfig where
  decks := 2
  jokers := 0
  faces := Faces.defaultList
  suits := Suits.defaultList

/-- The card list produced by build() on twoDeckCfg. -/
def builtTwoDeck : List CardM :=
  (Deck.build twoDeckCfg none none).toOption.getD []

/-- Number of cards with the given face and suit in a list. -/
def countFaceSuit (l : List CardM) (f s : String) : Nat :=
  (l.filter (fun c => c.face == f && c.suit == some s)).length

/-- The Ace of Spades with its derived value. -/
def aceOfSpades : CardM := { face := "Ace", suit := some "Spades", value := 14 }

/-- The King of Spades with its derived value. -/
def kingOfSpades : CardM :=
  { face := "King", suit := some "Spades", value := 13 }

/-- A Joker as built by Deck.build: face Joker, suit None, value 15. -/
def jokerCard : CardM := { face := "Joker", suit := none, value := 15 }

/-- Shared _values table after constructing the first, default Ranks
instance in a fresh process. -/
def sharedAfterR1 : RankValues :=
  ((Ranks.init none true none []).toOption.map (fun p => p.2)).getD []

/-- A second rank specification that reuses the Spades and Ace keys. -/
def spadesAceSpec : RankSpec where
  suits := [("Spades", PyNum.ofInt 1)]
  cards := [("Ace", PyNum.ofInt 1)]

/-- Shared _values table after additionally constructing a second instance
with Ranks(ranks=spadesAceSpec). -/
def sharedAfterR2 : RankValues :=
  ((Ranks.init (some spadesAceSpec) true none sharedAfterR1).toOption.map
    (fun p => p.2)).getD []

/-- Read one derived rank entry from a _values table. -/
def lookupRank (v : RankValues) (suit card : String) : Option PyNum :=
  (dictGet? v suit).bind (fun inner => dictGet? inner card)

/-- The pop order of an entire Stack: TOP pops from the back so all cards
come out reversed, BOTTOM pops front to back in the stored order. -/
def dealtAll (e : StackEnd) (cards : List CardM) : List CardM :=
  match e with
  | StackEnd.top => cards.reverse
  | StackEnd.bottom => cards

/-- Check that the derived value of a numeric face equals that number. -/
def deriveMatchesNat (n : Nat) : Bool :=
  match Card.deriveValue (toString n) none with
  | Except.ok v => v == (n : Int)
  | Except.error _ => false

theorem popEnd_of_ne_nil {α : Type} (e : StackEnd) (l : List α) (h : l ≠ []) :
    ∃ c rest, popEnd e l = some (c, rest) ∧ l.length = rest.length + 1 := by
  cases e with
  | top =>
    cases hr : l.reverse with
    | nil => exact absurd (List.reverse_eq_nil_iff.mp hr) h
    | cons c rest =>
      refine ⟨c, rest.reverse, ?_, ?_⟩
      · simp [popEnd, hr]
      · have h2 := congrArg List.length hr
        simp at h2
        simpa using h2
  | bottom =>
    cases l with
    | nil => exact absurd rfl h
    | cons c rest => exact ⟨c, rest, rfl, rfl⟩

theorem dealN_bottom (k : Nat) (l : List CardM) :
    dealN k StackEnd.bottom l = (l.take k, l.drop k) := by
  induction k generalizing l with
  | zero => simp [dealN]
  | succ n ih =>
    cases l with
    | nil => simp [dealN, popEnd]
    | cons c rest => simp [dealN, popEnd, ih]

theorem dealN_top (k : Nat) (l : List CardM) :
    dealN k StackEnd.top l = (l.reverse.take k, (l.reverse.drop k).reverse) := by
  induction k generalizing l with
  | zero => simp [dealN]
  | succ n ih =>
    cases hr : l.reverse with
    | nil =>
      have hl : l = [] := List.reverse_eq_nil_iff.mp hr
      subst hl
      simp [dealN, popEnd]
    | cons c rest =>
      have h1 : popEnd StackEnd.top l = some (c, rest.reverse) := by
        simp [popEnd, hr]
      simp [dealN, h1, ih, hr]

/-- Claim C1: building a Deck with decks=n and jokers=m should give
n times faces times suits plus m cards, every pair n times. The code never
reads self.decks, so Deck(decks=2) builds 52 cards with every (face, suit)
pair once, not 104 cards with every pair twice. -/
theorem C1_build_ignores_decks :
    Deck.build twoDeckCfg none none = Except.ok builtTwoDeck ∧
    builtTwoDeck.length = 52 ∧
    countFaceSuit builtTwoDeck "Ace" "Spades" = 1 ∧
    (52 : Nat) ≠
      twoDeckCfg.decks * (Faces.defaultList.length * Suits.defaultList.length)
        + twoDeckCfg.jokers ∧
    (1 : Nat) ≠ twoDeckCfg.decks :=
  ⟨rfl, by decide, by decide, by decide, by decide⟩

/-- Claim C3: compare should return a Bool verdict for any two collections;
instead every call of Stack.compare raises NameError because the body reads
the never assigned local variable yours, and the equality operators that
delegate to compare raise the same error. -/
theorem C3_compare_raises (a b : List CardM) :
    Stack.compare a b = Except.error PyErr.nameError ∧
    Stack.eqOp a b = Except.error PyErr.nameError ∧
    Stack.neOp a b = Except.error PyErr.nameError :=
  ⟨rfl, rfl, rfl⟩

/-- Claim C4: split should reconstruct the stack for indices 0, size,
size//2, -1, -size and out of range values. On a two card stack, split(2)
and split(-2) raise AttributeError inside the Stack constructor, and
split(-1) returns the last card followed by the first, so concatenation
does not reconstruct the stack; the midpoint and zero cases do behave as
claimed. -/
theorem C4_split_fails :
    Stack.split [aceOfSpades, kingOfSpades] (some 2) =
      Except.error PyErr.attributeError ∧
    Stack.split [aceOfSpades, kingOfSpades] (some (-2)) =
      Except.error PyErr.attributeError ∧
    Stack.split [aceOfSpades, kingOfSpades] (some (-1)) =
      Except.ok ([kingOfSpades], [aceOfSpades]) ∧
    [kingOfSpades] ++ [aceOfSpades] ≠ [aceOfSpades, kingOfSpades] ∧
    Stack.split [aceOfSpades, kingOfSpades] none =
      Except.ok ([aceOfSpades], [kingOfSpades]) ∧
    Stack.split [aceOfSpades, kingOfSpades] (some 0) =
      Except.ok ([], [aceOfSpades, kingOfSpades]) :=
  ⟨rfl, rfl, rfl, by decide, rfl, rfl⟩

/-- Claim C5 amended: dealing k cards and adding them back at the same end
restores the stack with the dealt block reversed in place, so the original
ordering is recovered exactly when k = 1 (or when the dealt block is a
palindrome); for larger k the original claim fails. -/
theorem C5_deal_add_roundtrip (s : List CardM) (k : Nat) (h1 : 1 ≤ k)
    (h2 : k ≤ s.length) :
    dealAddRoundTrip s k StackEnd.top =
      s.take (s.length - k) ++ (s.drop (s.length - k)).reverse ∧
    dealAddRoundTrip s k StackEnd.bottom =
      (s.take k).reverse ++ s.drop k ∧
    dealAddRoundTrip s 1 StackEnd.top = s ∧
    dealAddRoundTrip s 1 StackEnd.bottom = s := by
  have hn : 1 ≤ s.length := le_trans h1 h2
  have htop : ∀ m : Nat, m ≤ s.length → dealAddRoundTrip s m StackEnd.top =
      s.take (s.length - m) ++ (s.drop (s.length - m)).reverse := by
    intro m hm
    have e1 : (s.take (s.length - m)).reverse = s.reverse.drop m := by
      rw [List.reverse_take]
      congr 1
      omega
    have e2 : (s.drop (s.length - m)).reverse = s.reverse.take m := by
      rw [List.reverse_drop]
      congr 1
      omega
    have e1s : s.take (s.length - m) = (s.reverse.drop m).reverse := by
      rw [← e1, List.reverse_reverse]
    simp only [dealAddRoundTrip, Stack.deal, Stack.add, dealN_top]
    rw [e1s, e2]
  have hbot : ∀ m : Nat, dealAddRoundTrip s m StackEnd.bottom =
      (s.take m).reverse ++ s.drop m := by
    intro m
    simp only [dealAddRoundTrip, Stack.deal, Stack.add, dealN_bottom]
  refine ⟨htop k h2, hbot k, ?_, ?_⟩
  · rw [htop 1 hn]
    have hl : (s.drop (s.length - 1)).length = 1 := by
      rw [List.length_drop]
      omega
    obtain ⟨a, ha⟩ := List.length_eq_one.mp hl
    rw [ha]
    simp only [List.reverse_singleton]
    rw [← ha, List.take_append_drop]
  · rw [hbot 1]
    have hl : (s.take 1).length = 1 := by
      rw [List.length_take]
      omega
    obtain ⟨a, ha⟩ := List.length_eq_one.mp hl
    rw [ha]
    simp only [List.reverse_singleton]
    have : ([a] : List CardM) ++ s.drop 1 = s.take 1 ++ s.drop 1 := by rw [ha]
    rw [this, List.take_append_drop]

/-- Claim C5 counterexample: dealing 2 cards from a two card stack and
adding them back at the same end yields the reversed stack at both ends,
not the original ordering. -/
theorem C5_counterexample :
    dealAddRoundTrip [aceOfSpades, kingOfSpades] 2 StackEnd.top =
      [kingOfSpades, aceOfSpades] ∧
    dealAddRoundTrip [aceOfSpades, kingOfSpades] 2 StackEnd.bottom =
      [kingOfSpades, aceOfSpades] ∧
    [kingOfSpades, aceOfSpades] ≠ [aceOfSpades, kingOfSpades] :=
  ⟨rfl, rfl, by decide⟩

/-- Concrete run of C5_deal_add_roundtrip: dealing one card from a two card
stack and adding it back restores the stack. -/
theorem C5_deal_add_roundtrip_witness :
    1 ≤ ([aceOfSpades, kingOfSpades] : List CardM).length ∧
    dealAddRoundTrip [aceOfSpades, kingOfSpades] 1 StackEnd.top =
      [aceOfSpades, kingOfSpades] :=
  ⟨by decide,
    (C5_deal_add_roundtrip [aceOfSpades, kingOfSpades] 1 (le_refl 1)
      (by decide)).2.2.1⟩

/-- Claim C6 amended: dealing num greater than the current size raises
nothing, returns all remaining cards (in reversed stored order from TOP, in
stored order from BOTTOM) in a result shorter than num, and leaves the
source empty; Stack.deal returns the class of self, but Deck.deal with
rebuild disabled always returns a plain Stack rather than a collection of
the same class as the Deck. -/
theorem C6_deal_overflow (cls : PyClass) (num : Nat) (e : StackEnd)
    (cards : List CardM) (h : cards.length < num) :
    Stack.deal cls num e cards =
      { cls := cls, dealt := dealtAll e cards, remaining := [] } ∧
    Deck.dealNoRebuild num e cards =
      { cls := PyClass.stack, dealt := dealtAll e cards, remaining := [] } ∧
    (dealtAll e cards).length = cards.length ∧
    (dealtAll e cards).length < num := by
  have hd : dealN num e cards = (dealtAll e cards, []) := by
    cases e with
    | top =>
      rw [dealN_top]
      have h1 : cards.reverse.length ≤ num := by
        rw [List.length_reverse]
        omega
      rw [List.take_of_length_le h1, List.drop_eq_nil_of_le h1]
      simp [dealtAll]
    | bottom =>
      rw [dealN_bottom]
      have h1 : cards.length ≤ num := by omega
      rw [List.take_of_length_le h1, List.drop_eq_nil_of_le h1]
      simp [dealtAll]
  have hlen : (dealtAll e cards).length = cards.length := by
    cases e <;> simp [dealtAll]
  refine ⟨?_, ?_, hlen, by omega⟩
  · simp only [Stack.deal, hd]
  · simp only [Deck.dealNoRebuild, hd]

/-- Claim C6 counterexample: a one card Deck with rebuild disabled, dealt
two cards, returns a collection whose class is Stack, not Deck. -/
theorem C6_counterexample :
    (Deck.dealNoRebuild 2 StackEnd.top [aceOfSpades]).cls ≠ PyClass.deck := by
  decide

/-- Concrete run of C6_deal_overflow: dealing 2 from a one card stack. -/
theorem C6_deal_overflow_witness :
    ([aceOfSpades] : List CardM).length < 2 ∧
    Stack.deal PyClass.stack 2 StackEnd.top [aceOfSpades] =
      { cls := PyClass.stack, dealt := [aceOfSpades], remaining := [] } :=
  ⟨by decide, by
    have h :=
      (C6_deal_overflow PyClass.stack 2 StackEnd.top [aceOfSpades]
        (by decide)).1
    simpa [dealtAll] using h⟩

theorem dealRebuild_len_le (sh : List CardM → List CardM)
    (built : List CardM) (e : StackEnd) :
    ∀ num cards, num ≤ cards.length →
      (Deck.dealRebuild sh built e num cards).map
        (fun p => (p.1.length, p.2.length)) =
        some (num, cards.length - num) := by
  intro num
  induction num with
  | zero =>
    intro cards h
    simp [Deck.dealRebuild]
  | succ n ih =>
    intro cards h
    have hne : cards ≠ [] := by
      intro hc
      subst hc
      simp at h
    obtain ⟨c, rest, hpop, hlen⟩ := popEnd_of_ne_nil e cards hne
    have hrest : n ≤ rest.length := by omega
    have hih := ih rest hrest
    cases hdr : Deck.dealRebuild sh built e n rest with
    | none =>
      rw [hdr] at hih
      simp at hih
    | some p =>
      rw [hdr] at hih
      simp only [Option.map, Option.some.injEq, Prod.mk.injEq] at hih
      simp only [Deck.dealRebuild, hpop, hdr, Option.map, List.length_cons,
        Option.some.injEq, Prod.mk.injEq]
      omega

theorem dealRebuild_len_gt (sh : List CardM → List CardM)
    (built : List CardM) (e : StackEnd) :
    ∀ num cards, cards.length < num →
      num - cards.length ≤ (sh built).length →
      (Deck.dealRebuild sh built e num cards).map
        (fun p => (p.1.length, p.2.length)) =
        some (num, (sh built).length - (num - cards.length)) := by
  intro num
  induction num with
  | zero =>
    intro cards h _
    exact absurd h (Nat.not_lt_zero _)
  | succ n ih =>
    intro cards hlt hle
    by_cases hc : cards = []
    · subst hc
      have hfresh : sh built ≠ [] := by
        intro hf
        rw [hf] at hle
        simp at hle
      obtain ⟨c, rest2, hpop2, hlen2⟩ := popEnd_of_ne_nil e (sh built) hfresh
      simp only [List.length_nil, Nat.sub_zero] at hle ⊢
      have hrest : n ≤ rest2.length := by omega
      have hih := dealRebuild_len_le sh built e n rest2 hrest
      cases hdr : Deck.dealRebuild sh built e n rest2 with
      | none =>
        rw [hdr] at hih
        simp at hih
      | some p =>
        rw [hdr] at hih
        simp only [Option.map, Option.some.injEq, Prod.mk.injEq] at hih
        have hpopnil : popEnd e ([] : List CardM) = none := by
          cases e <;> rfl
        simp only [Deck.dealRebuild, hpopnil, hpop2, hdr, Option.map,
          List.length_cons, Option.some.injEq, Prod.mk.injEq]
        omega
    · obtain ⟨c, rest, hpop, hlen⟩ := popEnd_of_ne_nil e cards hc
      have hlt2 : rest.length < n := by omega
      have hle2 : n - rest.length ≤ (sh built).length := by omega
      have hih := ih rest hlt2 hle2
      cases hdr : Deck.dealRebuild sh built e n rest with
      | none =>
        rw [hdr] at hih
        simp at hih
      | some p =>
        rw [hdr] at hih
        simp only [Option.map, Option.some.injEq, Prod.mk.injEq] at hih
        simp only [Deck.dealRebuild, hpop, hdr, Option.map, List.length_cons,
          Option.some.injEq, Prod.mk.injEq]
        omega

/-- Claim C2: with rebuild and reshuffle enabled, dealing more cards than
remain should leave decks*52+jokers minus the deficit. Because build()
ignores the decks count, a Deck constructed with decks=2 rebuilds to 52
cards, so dealing 53 from the freshly built deck returns 53 cards but
leaves 51, not 2*52+0-1 = 103. The shuffle outcome sh may be any length
preserving permutation of the rebuilt contents. -/
theorem C2_deal_rebuild_size (sh : List CardM → List CardM)
    (hsh : (sh builtTwoDeck).length = 52) :
    (Deck.dealRebuild sh builtTwoDeck StackEnd.top 53 builtTwoDeck).map
      (fun p => (p.1.length, p.2.length)) = some (53, 51) ∧
    builtTwoDeck.length = 52 ∧
    (51 : Nat) ≠
      twoDeckCfg.decks * 52 + twoDeckCfg.jokers - (53 - builtTwoDeck.length) := by
  have hb : builtTwoDeck.length = 52 := by decide
  refine ⟨?_, hb, by decide⟩
  have h :=
    dealRebuild_len_gt sh builtTwoDeck StackEnd.top 53 builtTwoDeck
      (by omega) (by omega)
  rw [h]
  rw [hsh, hb]

/-- Concrete run of C2_deal_rebuild_size with the identity permutation as
the shuffle outcome. -/
theorem C2_deal_rebuild_size_witness :
    ((fun l : List CardM => l) builtTwoDeck).length = 52 ∧
    (Deck.dealRebuild (fun l : List CardM => l) builtTwoDeck StackEnd.top 53
      builtTwoDeck).map (fun p => (p.1.length, p.2.length)) = some (53, 51) :=
  ⟨by decide, (C2_deal_rebuild_size (fun l => l) (by decide)).1⟩

/-- Claim C7: rank lookups should never raise. In fact, for any card whose
suit is a key of the derived table (such as the Ace of Spades against the
default table) get_card_rank evaluates card.card, an attribute Card does
not define, and raises AttributeError; and a Joker card with jokers
enabled falls through to 0 instead of the Joker entry, because Card.name
evaluates to the text Joker of None and never equals Joker. -/
theorem C7_get_card_rank_raises :
    Card.init "Ace" (some "Spades") none = Except.ok aceOfSpades ∧
    Ranks.get_card_rank sharedAfterR1 false aceOfSpades =
      Except.error PyErr.attributeError ∧
    Ranks.get_card_rank sharedAfterR1 true jokerCard =
      Except.ok (PyRankValue.num (PyNum.ofInt 0)) ∧
    Card.name jokerCard = "Joker of None" :=
  ⟨rfl, rfl, rfl, rfl⟩

/-- Claim C9: constructing and deriving a second Ranks instance must not
change the first derived table. Because _values is a class attribute
mutated in place by build_ranks, constructing Ranks(ranks=spadesAceSpec)
after the default instance overwrites the shared Spades Ace entry from 14
to 1.01, while entries the second spec does not touch keep their old
value: cross instance interference through the shared table does occur. -/
theorem C9_shared_values_interference :
    lookupRank sharedAfterR1 "Spades" "Ace" = some (PyNum.ofInt 14) ∧
    lookupRank sharedAfterR2 "Spades" "Ace" =
      some { num := 101, den := 100 } ∧
    ¬PyNum.valEq { num := 101, den := 100 } (PyNum.ofInt 14) ∧
    lookupRank sharedAfterR2 "Hearts" "King" = some (PyNum.ofInt 13) :=
  ⟨by decide, by decide, by decide, by decide⟩

theorem cardInit_isOk (face : String) (suit : Option String)
    (v : Option Int) :
    (Card.init face suit v).isOk =
      (Card.deriveValue (pyCapitalize face) v).isOk := by
  cases hd : Card.deriveValue (pyCapitalize face) v <;>
    simp [Card.init, hd, Except.map, Except.isOk, Except.toBool]

theorem deriveValue_isOk (f : String) :
    (Card.deriveValue f none).isOk = true ↔
      f ∈ (["Joker", "Ace", "King", "Queen", "Jack"] : List String) ∨
        (pyInt f).isSome = true := by
  unfold Card.deriveValue
  split_ifs with h1 h2 h3 h4 h5
  · simp [h1, Except.isOk, Except.toBool]
  · simp [h2, Except.isOk, Except.toBool]
  · simp [h3, Except.isOk, Except.toBool]
  · simp [h4, Except.isOk, Except.toBool]
  · simp [h5, Except.isOk, Except.toBool]
  · cases hp : pyInt f <;>
      simp [Except.isOk, Except.toBool, h1, h2, h3, h4, h5, hp]

/-- Claim C8 amended: without an explicit value argument, the derived value
matches the fixed table on the named faces and on the numeric faces 2 to
10, and construction fails exactly when the capitalized face is none of
Joker, Ace, King, Queen, Jack and does not parse as an integer at all.
Faces parsing to integers outside 2 to 10, such as 11, are accepted with
that integer as the value, so the claimed iff restricted to integers 2 to
10 does not hold. -/
theorem C8_value_derivation (face : String) (suit : Option String) :
    ((Card.init face suit none).isOk = true ↔
      pyCapitalize face ∈ (["Joker", "Ace", "King", "Queen", "Jack"] : List String) ∨
        (pyInt (pyCapitalize face)).isSome = true) ∧
    Card.deriveValue "Joker" none = Except.ok 15 ∧
    Card.deriveValue "Ace" none = Except.ok 14 ∧
    Card.deriveValue "King" none = Except.ok 13 ∧
    Card.deriveValue "Queen" none = Except.ok 12 ∧
    Card.deriveValue "Jack" none = Except.ok 11 ∧
    (((List.range 9).map (fun n => n + 2)).all deriveMatchesNat) = true := by
  refine ⟨?_, rfl, rfl, rfl, rfl, rfl, by decide⟩
  rw [cardInit_isOk]
  exact deriveValue_isOk (pyCapitalize face)

/-- Claim C8 counterexample: the face 11 is neither a named face nor an
integer from 2 to 10, yet Card construction succeeds and stores value
11. -/
theorem C8_counterexample :
    Card.init "11" none none =
      Except.ok { face := "11", suit := none, value := 11 } ∧
    ¬((2 : Int) ≤ 11 ∧ (11 : Int) ≤ 10) :=
  ⟨rfl, by decide⟩

/-- Claim C10: the constructor stores str(face).capitalize() as the face
and capitalizes a truthy suit while storing a falsy suit unchanged, so the
lowercase pair ace and spades yields the canonical Ace of Spades with the
same derived value. Confirmed as stated. -/
theorem C10_normalization (face : String) (suit : Option String)
    (c : CardM) (h : Card.init face suit none = Except.ok c) :
    c.face = pyCapitalize face ∧ c.suit = pySuitNorm suit ∧
    Card.init "ace" (some "spades") none =
      Except.ok { face := "Ace", suit := some "Spades", value := 14 } ∧
    Card.init "ace" (some "spades") none =
      Card.init "Ace" (some "Spades") none := by
  unfold Card.init at h
  cases hd : Card.deriveValue (pyCapitalize face) none with
  | error err =>
    simp [hd, Except.map] at h
  | ok v =>
    simp only [hd, Except.map, Except.ok.injEq] at h
    subst h
    exact ⟨rfl, rfl, rfl, rfl⟩

/-- Concrete run of C10_normalization at the lowercase ace of spades. -/
theorem C10_normalization_witness :
    Card.init "ace" (some "spades") none =
      Except.ok { face := "Ace", suit := some "Spades", value := 14 } ∧
    ({ face := "Ace", suit := some "Spades", value := 14 } : CardM).face =
      pyCapitalize "ace" :=
  ⟨rfl,
    (C10_normalization "ace" (some "spades")
      { face := "Ace", suit := some "Spades", value := 14 } rfl).1⟩
